import Mathlib

/-!
Verification of `opview::optional_unique_view<T>`
(src/include/opview/optional_unique_view.hpp).

The class stores a `std::unique_ptr<T> value` and a `bool is_owner`.  We embed
it shallowly: addresses are natural numbers, a heap maps addresses to the live
value stored there (or `none` when the cell is free), and `std::unique_ptr`'s
raw pointer is an `Option Nat` (`none` models `nullptr`).  Allocation
(`new T{...}`) is a bump allocator on a `Mem` state; `delete` (performed by
`unique_ptr`'s `operator=(nullptr)`) frees the cell.
-/

/-- Point update of a heap: cell `a` now holds `v`, all other cells unchanged. -/
def hupdate {T : Type} (h : Nat → Option T) (a : Nat) (v : Option T) : Nat → Option T :=
  fun b => if b = a then v else h b

/-- Memory state: the heap of cells plus a bump allocator whose `next` address
has never been handed out. -/
structure Mem (T : Type) where
  heap : Nat → Option T
  next : Nat

/-- Allocate a fresh cell holding `v` (models `new T{std::move(_value)}`),
returning the new memory and the address of the cell. -/
def Mem.alloc {T : Type} (m : Mem T) (v : T) : Mem T × Nat :=
  ({ heap := hupdate m.heap m.next (some v), next := m.next + 1 }, m.next)

/-- Free the cell at `a` (models the `delete` run by `std::unique_ptr` when it
drops a non-null pointer). -/
def Mem.free {T : Type} (m : Mem T) (a : Nat) : Mem T :=
  { m with heap := hupdate m.heap a none }

/-- State of an `opview::optional_unique_view<T>` object: `value` is the raw
pointer held by the `std::unique_ptr<T> value` member (`none` models
`nullptr`), and `is_owner` is the `bool is_owner` member. -/
structure optional_unique_view (T : Type) where
  value : Option Nat
  is_owner : Bool

/-- Default constructor `optional_unique_view() : value{nullptr} {}`; the
`is_owner` member keeps its default initializer `false`. -/
def optional_unique_view.mk_default (T : Type) : optional_unique_view T :=
  ⟨none, false⟩

/-- Constructor `optional_unique_view(T& _value) : value{&_value},
is_owner{false} {}`: stores the address of the caller's lvalue, no copy. -/
def optional_unique_view.of_lvalue (T : Type) (a : Nat) : optional_unique_view T :=
  ⟨some a, false⟩

/-- Constructor `optional_unique_view(T&& _value) : value{new T{std::move(_value)}},
is_owner{true} {}`: materializes a fresh owned copy of the temporary. -/
def optional_unique_view.of_rvalue {T : Type} (m : Mem T) (v : T) :
    optional_unique_view T × Mem T :=
  (⟨some (m.alloc v).2, true⟩, (m.alloc v).1)

/-- Constructor `optional_unique_view(std::nullopt_t) : value{nullptr},
is_owner{false} {}`. -/
def optional_unique_view.of_nullopt (T : Type) : optional_unique_view T :=
  ⟨none, false⟩

/-- Model of a `std::optional<T>` lvalue as seen by the constructor: its
engagement state and the address of its payload storage (the payload lives in
the heap at `addr` while the container is engaged). -/
structure StdOptional (T : Type) where
  engaged : Bool
  addr : Nat

/-- Constructor `optional_unique_view(std::optional<T>& op_data) :
value{op_data ? &(*op_data) : nullptr}, is_owner{false} {}`: snapshot of the
container's engagement state and payload address at construction time. -/
def optional_unique_view.of_optional {T : Type} (op : StdOptional T) :
    optional_unique_view T :=
  ⟨if op.engaged then some op.addr else none, false⟩

/-- Move constructor `optional_unique_view(optional_unique_view&& other) :
value{std::move(other.value)}, is_owner{other.is_owner}`.  Returns the new
object and the post-move state of `other`: moving a `std::unique_ptr` nulls
the source's pointer, while `other.is_owner` is not written at all. -/
def optional_unique_view.move_construct {T : Type} (other : optional_unique_view T) :
    optional_unique_view T × optional_unique_view T :=
  (⟨other.value, other.is_owner⟩, ⟨none, other.is_owner⟩)

/-- Destructor `~optional_unique_view() { if (!is_owner) value.release();
value = nullptr; }`.  `release()` nulls the pointer without deleting;
assigning `nullptr` deletes the currently held pointer when it is non-null.
Returns the resulting memory and the number of deletes performed. -/
def optional_unique_view.destruct {T : Type} (v : optional_unique_view T)
    (m : Mem T) : Mem T × Nat :=
  match (if v.is_owner then v.value else none) with
  | none => (m, 0)
  | some a => (m.free a, 1)

/-- Member access `T* operator->() { return value.get(); }`: returns the raw
pointer unconditionally, never dereferencing it. -/
def optional_unique_view.arrow {T : Type} (v : optional_unique_view T) : Option Nat :=
  v.value

/-- Dereference `T& operator*() { return *value; }`: reads the cell behind the
stored pointer; `none` marks the undefined-behavior case of a null pointer or
a dead cell. -/
def optional_unique_view.op_star {T : Type} (v : optional_unique_view T)
    (h : Nat → Option T) : Option T :=
  match v.value with
  | none => none
  | some a => h a

/-- Accessor `T& get() { return *value; }`, same body as `operator*`. -/
def optional_unique_view.get {T : Type} (v : optional_unique_view T)
    (h : Nat → Option T) : Option T :=
  match v.value with
  | none => none
  | some a => h a

/-- Mutation through the reference returned by `operator*` (client code
`*view = w`): writes the cell behind the stored pointer. -/
def optional_unique_view.write_through {T : Type} (v : optional_unique_view T)
    (h : Nat → Option T) (w : T) : Nat → Option T :=
  match v.value with
  | none => h
  | some a => hupdate h a (some w)

/-- Query `bool empty() const { return !(value); }`. -/
def optional_unique_view.empty {T : Type} (v : optional_unique_view T) : Bool :=
  !v.value.isSome

/-- Conversion `operator bool() { return (bool)value; }`. -/
def optional_unique_view.to_bool {T : Type} (v : optional_unique_view T) : Bool :=
  v.value.isSome

/-- The special member functions that `optional_unique_view` declares besides
its converting constructors. -/
inductive SpecialMember where
  | copy_construct
  | move_construct
  | copy_assign
  | move_assign
deriving DecidableEq

/-- Which of the declared special members carry `= delete` in the source:
the copy constructor and both assignment operators are deleted; only the move
constructor is provided. -/
def SpecialMember.deleted : SpecialMember → Bool
  | .copy_construct => true
  | .move_construct => false
  | .copy_assign => true
  | .move_assign => true

/-- C1: destruction releases the stored value iff `is_owner` is true.  For a
view holding a cell `a`: if the owner flag is set the destructor frees exactly
that cell and performs exactly one delete; if the flag is clear the destructor
performs no delete and returns the memory untouched, so aliased caller-owned
storage stays valid. -/
theorem C1_destruct_releases_iff_owner {T : Type} (v : optional_unique_view T)
    (m : Mem T) (a : Nat) (hval : v.value = some a) :
    (v.is_owner = true → v.destruct m = (m.free a, 1))
    ∧ (v.is_owner = false → v.destruct m = (m, 0))
    ∧ ((v.destruct m).2 = 1 ↔ v.is_owner = true) := by
  cases how : v.is_owner <;>
    simp [optional_unique_view.destruct, how, hval]

/-- Witness for C1 at a concrete owning view and a concrete non-owning view
over the same live cell. -/
theorem C1_destruct_releases_iff_owner_witness :
    ((⟨some 0, true⟩ : optional_unique_view Nat).value = some 0
      ∧ ((⟨some 0, true⟩ : optional_unique_view Nat).destruct
          ⟨fun b => if b = 0 then some 7 else none, 1⟩).2 = 1)
    ∧ ((⟨some 0, false⟩ : optional_unique_view Nat).value = some 0
      ∧ ((⟨some 0, false⟩ : optional_unique_view Nat).destruct
          ⟨fun b => if b = 0 then some 7 else none, 1⟩).2 = 0) :=
  ⟨⟨rfl, ((C1_destruct_releases_iff_owner
      (⟨some 0, true⟩ : optional_unique_view Nat)
      ⟨fun b => if b = 0 then some 7 else none, 1⟩ 0 rfl).2.2).mpr rfl ⟩,
   ⟨rfl, by
      have h := (C1_destruct_releases_iff_owner
        (⟨some 0, false⟩ : optional_unique_view Nat)
        ⟨fun b => if b = 0 then some 7 else none, 1⟩ 0 rfl).2.1 rfl
      simp [h]⟩⟩

/-- C2: constructing from a temporary `v` allocates a fresh cell holding a copy
of `v`, sets the owner flag, and the view is present and dereferences to that
copy; every cell live beforehand is a different address and keeps its value
(the copy is independently owned). -/
theorem C2_rvalue_materializes_owned_copy {T : Type} (m : Mem T) (v : T)
    (hfresh : m.heap m.next = none) :
    (optional_unique_view.of_rvalue m v).1
        = (⟨some m.next, true⟩ : optional_unique_view T)
    ∧ ((optional_unique_view.of_rvalue m v).1).to_bool = true
    ∧ ((optional_unique_view.of_rvalue m v).1).op_star
        ((optional_unique_view.of_rvalue m v).2).heap = some v
    ∧ ∀ b, m.heap b ≠ none →
        b ≠ m.next ∧ ((optional_unique_view.of_rvalue m v).2).heap b = m.heap b := by
  refine ⟨rfl, rfl, ?_, ?_⟩
  · simp [optional_unique_view.of_rvalue, optional_unique_view.op_star,
      Mem.alloc, hupdate]
  · intro b hb
    have hne : b ≠ m.next := fun he => hb (he ▸ hfresh)
    exact ⟨hne, by
      simp [optional_unique_view.of_rvalue, Mem.alloc, hupdate, hne]⟩

/-- Witness for C2: an empty memory and the temporary value `5`. -/
theorem C2_rvalue_materializes_owned_copy_witness :
    ((⟨fun _ => none, 0⟩ : Mem Nat).heap 0 = none)
    ∧ ((optional_unique_view.of_rvalue (⟨fun _ => none, 0⟩ : Mem Nat) 5).1).op_star
        ((optional_unique_view.of_rvalue (⟨fun _ => none, 0⟩ : Mem Nat) 5).2).heap
        = some 5 :=
  ⟨rfl, (C2_rvalue_materializes_owned_copy
      (⟨fun _ => none, 0⟩ : Mem Nat) 5 rfl).2.2.1⟩

/-- C3: move construction transfers the address and the owner flag to the new
object and leaves the source absent; a present source yields a present
destination that dereferences to the same value. -/
theorem C3_move_transfers_and_clears_source {T : Type}
    (u : optional_unique_view T) (h : Nat → Option T) :
    (u.move_construct).1.value = u.value
    ∧ (u.move_construct).1.is_owner = u.is_owner
    ∧ (u.move_construct).2.to_bool = false
    ∧ (u.move_construct).2.value = none
    ∧ (u.to_bool = true →
        (u.move_construct).1.to_bool = true
        ∧ (u.move_construct).1.op_star h = u.op_star h) := by
  refine ⟨rfl, rfl, rfl, rfl, fun hp => ⟨hp, rfl⟩⟩

/-- Witness for C3 at a present owning view over a concrete heap. -/
theorem C3_move_transfers_and_clears_source_witness :
    ((⟨some 2, true⟩ : optional_unique_view Nat).to_bool = true)
    ∧ ((⟨some 2, true⟩ : optional_unique_view Nat).move_construct).2.to_bool = false
    ∧ ((⟨some 2, true⟩ : optional_unique_view Nat).move_construct).1.op_star
        (fun b => if b = 2 then some 5 else none)
        = (⟨some 2, true⟩ : optional_unique_view Nat).op_star
        (fun b => if b = 2 then some 5 else none) :=
  ⟨rfl,
   (C3_move_transfers_and_clears_source (⟨some 2, true⟩ : optional_unique_view Nat)
      (fun b => if b = 2 then some 5 else none)).2.2.1,
   ((C3_move_transfers_and_clears_source (⟨some 2, true⟩ : optional_unique_view Nat)
      (fun b => if b = 2 then some 5 else none)).2.2.2.2 rfl).2⟩

/-- C4: a view built from an lvalue at address `a` stores exactly that address
(identity, not a copy), is present, observes any mutation of the lvalue's
cell, and writing through the view updates the lvalue's cell. -/
theorem C4_lvalue_aliases_storage {T : Type} (a : Nat) (h : Nat → Option T) (w : T) :
    (optional_unique_view.of_lvalue T a).value = some a
    ∧ (optional_unique_view.of_lvalue T a).to_bool = true
    ∧ (optional_unique_view.of_lvalue T a).op_star (hupdate h a (some w)) = some w
    ∧ ((optional_unique_view.of_lvalue T a).write_through h w) a = some w := by
  refine ⟨rfl, rfl, ?_, ?_⟩ <;>
    simp [optional_unique_view.of_lvalue, optional_unique_view.op_star,
      optional_unique_view.write_through, hupdate]

/-- C5: a view built from an engaged container is exactly the snapshot of the
payload address (present, non-owning); mutating the payload cell is seen
through the view; a view built from a disengaged container is absent. -/
theorem C5_optional_interop_snapshot {T : Type} (op : StdOptional T)
    (h : Nat → Option T) (w : T) :
    (op.engaged = true →
      optional_unique_view.of_optional op
          = (⟨some op.addr, false⟩ : optional_unique_view T)
      ∧ (optional_unique_view.of_optional op).to_bool = true
      ∧ (optional_unique_view.of_optional op).op_star
          (hupdate h op.addr (some w)) = some w)
    ∧ (op.engaged = false →
        (optional_unique_view.of_optional op).to_bool = false) := by
  constructor
  · intro he
    refine ⟨?_, ?_, ?_⟩ <;>
      simp [optional_unique_view.of_optional, optional_unique_view.to_bool,
        optional_unique_view.op_star, hupdate, he]
  · intro he
    simp [optional_unique_view.of_optional, optional_unique_view.to_bool, he]

/-- Witness for C5 at an engaged container with payload cell 3 and at a
disengaged container. -/
theorem C5_optional_interop_snapshot_witness :
    ((⟨true, 3⟩ : StdOptional Nat).engaged = true
      ∧ (optional_unique_view.of_optional (⟨true, 3⟩ : StdOptional Nat)).op_star
          (hupdate (fun _ => none) 3 (some 25)) = some 25)
    ∧ ((⟨false, 3⟩ : StdOptional Nat).engaged = false
      ∧ (optional_unique_view.of_optional (⟨false, 3⟩ : StdOptional Nat)).to_bool
          = false) :=
  ⟨⟨rfl, ((C5_optional_interop_snapshot (⟨true, 3⟩ : StdOptional Nat)
      (fun _ => none) 25).1 rfl).2.2⟩,
   ⟨rfl, (C5_optional_interop_snapshot (⟨false, 3⟩ : StdOptional Nat)
      (fun _ => none) 25).2 rfl⟩⟩

/-- C6: the copy constructor and both assignment operators are deleted in the
source, and the move constructor is the only special member that is not
deleted, so no operation duplicates a live view or rebinds one after
construction. -/
theorem C6_copy_and_assignment_deleted :
    SpecialMember.deleted .copy_construct = true
    ∧ SpecialMember.deleted .copy_assign = true
    ∧ SpecialMember.deleted .move_assign = true
    ∧ ∀ s : SpecialMember, s.deleted = false ↔ s = .move_construct := by
  refine ⟨rfl, rfl, rfl, ?_⟩
  intro s
  cases s <;> simp [SpecialMember.deleted]

/-- C7: a view constructed from `std::nullopt` is absent (`operator bool`
false, `empty()` true), and in general `operator bool` is true exactly when
the view holds a binding, the complement of `empty()`. -/
theorem C7_nullopt_absent_bool_iff_present {T : Type}
    (v : optional_unique_view T) :
    (optional_unique_view.of_nullopt T).to_bool = false
    ∧ (optional_unique_view.of_nullopt T).empty = true
    ∧ (v.to_bool = true ↔ v.value ≠ none)
    ∧ (v.to_bool = !v.empty) := by
  refine ⟨rfl, rfl, ?_, ?_⟩
  · cases hv : v.value <;>
      simp [optional_unique_view.to_bool, hv]
  · cases hv : v.value <;>
      simp [optional_unique_view.to_bool, optional_unique_view.empty, hv]

/-- Witness for C7 at a present view and an absent view. -/
theorem C7_nullopt_absent_bool_iff_present_witness :
    ((⟨some 4, false⟩ : optional_unique_view Nat).to_bool = true
      ∧ (⟨some 4, false⟩ : optional_unique_view Nat).value ≠ none)
    ∧ (optional_unique_view.of_nullopt Nat).to_bool = false :=
  ⟨⟨(C7_nullopt_absent_bool_iff_present
        (⟨some 4, false⟩ : optional_unique_view Nat)).2.2.1.mpr (by simp),
    by simp⟩,
   (C7_nullopt_absent_bool_iff_present
        (⟨some 4, false⟩ : optional_unique_view Nat)).1⟩

/-- C8: moving from an owning view keeps the source's owner flag (it stays
true) but nulls its pointer; a destructor on a null-pointer view deletes
nothing, so running both destructors releases the cell exactly once in total,
in either order. -/
theorem C8_move_no_double_free {T : Type} (u : optional_unique_view T)
    (m : Mem T) (a : Nat) (hown : u.is_owner = true) (hval : u.value = some a) :
    (u.move_construct).2.is_owner = true
    ∧ (u.move_construct).2.value = none
    ∧ (u.move_construct).2.destruct m = (m, 0)
    ∧ (u.move_construct).1.destruct m = (m.free a, 1)
    ∧ ((u.move_construct).2.destruct m).2
        + ((u.move_construct).1.destruct ((u.move_construct).2.destruct m).1).2 = 1
    ∧ ((u.move_construct).1.destruct m).2
        + ((u.move_construct).2.destruct ((u.move_construct).1.destruct m).1).2 = 1 := by
  refine ⟨by simp [optional_unique_view.move_construct, hown], rfl, ?_, ?_, ?_, ?_⟩ <;>
    simp [optional_unique_view.move_construct, optional_unique_view.destruct,
      hown, hval]

/-- Witness for C8 at a concrete owning view over a one-cell memory. -/
theorem C8_move_no_double_free_witness :
    ((⟨some 0, true⟩ : optional_unique_view Nat).is_owner = true
      ∧ (⟨some 0, true⟩ : optional_unique_view Nat).value = some 0)
    ∧ (((⟨some 0, true⟩ : optional_unique_view Nat).move_construct).1.destruct
        ⟨fun b => if b = 0 then some 5 else none, 1⟩).2
      + (((⟨some 0, true⟩ : optional_unique_view Nat).move_construct).2.destruct
          ((((⟨some 0, true⟩ : optional_unique_view Nat).move_construct).1.destruct
            ⟨fun b => if b = 0 then some 5 else none, 1⟩)).1).2 = 1 :=
  ⟨⟨rfl, rfl⟩,
   (C8_move_no_double_free (⟨some 0, true⟩ : optional_unique_view Nat)
      ⟨fun b => if b = 0 then some 5 else none, 1⟩ 0 rfl rfl).2.2.2.2.2⟩

/-- C9: `operator->` returns the stored raw pointer without reading the heap:
the address when present, null when absent; `operator*` and `get` have a
defined result only on a present view, an absent view yields none on every
heap. -/
theorem C9_arrow_total_star_needs_present {T : Type} (v : optional_unique_view T)
    (h : Nat → Option T) (a : Nat) :
    v.arrow = v.value
    ∧ (v.value = some a → v.arrow = some a)
    ∧ (v.value = none → v.arrow = none)
    ∧ (v.value = none → v.op_star h = none ∧ v.get h = none) := by
  refine ⟨rfl, fun hv => hv, fun hv => hv, fun hv => ?_⟩
  simp [optional_unique_view.op_star, optional_unique_view.get, hv]

/-- Witness for C9 at a present view and at the absent view. -/
theorem C9_arrow_total_star_needs_present_witness :
    ((⟨some 6, false⟩ : optional_unique_view Nat).value = some 6
      ∧ (⟨some 6, false⟩ : optional_unique_view Nat).arrow = some 6)
    ∧ ((⟨none, false⟩ : optional_unique_view Nat).value = none
      ∧ (⟨none, false⟩ : optional_unique_view Nat).op_star (fun _ => some 9) = none) :=
  ⟨⟨rfl, (C9_arrow_total_star_needs_present (⟨some 6, false⟩ : optional_unique_view Nat)
      (fun _ => some 9) 6).2.1 rfl⟩,
   ⟨rfl, ((C9_arrow_total_star_needs_present (⟨none, false⟩ : optional_unique_view Nat)
      (fun _ => some 9) 6).2.2.2 rfl).1⟩⟩

/-- C10: a default-constructed view is absent and non-owning: `operator bool`
false, `empty()` true, owner flag false, and its destructor deletes nothing
and leaves memory untouched. -/
theorem C10_default_absent_nonowning {T : Type} (m : Mem T) :
    (optional_unique_view.mk_default T).value = none
    ∧ (optional_unique_view.mk_default T).is_owner = false
    ∧ (optional_unique_view.mk_default T).to_bool = false
    ∧ (optional_unique_view.mk_default T).empty = true
    ∧ (optional_unique_view.mk_default T).destruct m = (m, 0) :=
  ⟨rfl, rfl, rfl, rfl, rfl⟩
